import Mathlib

/-!
Verification of the dependabot-drupal-mrn GitHub Action (src/index.js).

The development shallowly embeds the JavaScript source into Lean:
pure string manipulation becomes functions over `String`/`List Char`,
the HTTP calls become explicit result values fed into the pure part of
the program, and JavaScript truthiness on nullable strings is modelled
with `Option String`.
-/

/-- Whitespace class of the JavaScript regular-expression escape `\s`
(also the class trimmed by `String.prototype.trim`). -/
def jsWhitespace (c : Char) : Bool :=
  let n := c.toNat
  n = 9 || n = 10 || n = 11 || n = 12 || n = 13 || n = 32 ||
  n = 0xa0 || n = 0x1680 || (0x2000 ≤ n && n ≤ 0x200a) ||
  n = 0x2028 || n = 0x2029 || n = 0x202f || n = 0x205f || n = 0x3000 || n = 0xfeff

/-- JavaScript truthiness of a nullable string: `null`/`undefined` and the
empty string are falsy, every other string is truthy. -/
def jsTruthyOpt : Option String → Bool
  | none => false
  | some s => s != ""

/-- JavaScript `a || b` on two nullable strings: returns `a` when truthy,
otherwise `b`. -/
def jsOrOpt (a b : Option String) : Option String :=
  if jsTruthyOpt a then a else b

/-- JavaScript `a || d` with a string default: used for `typeGroup.type || 'Misc'`. -/
def jsOrDefault (a : Option String) (d : String) : String :=
  match a with
  | none => d
  | some s => if s = "" then d else s

/-- Interpolation of a nullable string into a JavaScript template literal:
`null` is rendered as the text `null`. -/
def jsTemplateOpt : Option String → String
  | none => "null"
  | some s => s

/-- Occurrence check of `pat` as a contiguous substring, on character lists;
embeds `String.prototype.includes`. -/
def containsSub (pat : List Char) : List Char → Bool
  | [] => pat.isPrefixOf []
  | c :: rest => pat.isPrefixOf (c :: rest) || containsSub pat rest

/-- Embeds `s.includes(pat)` on strings. -/
def strIncludes (s pat : String) : Bool := containsSub pat.data s.data

/-- Splits a character list into its maximal leading digit run and the rest;
the building block for the digit groups `(\d+)` of the source regex. -/
def digitSpan (cs : List Char) : List Char × List Char :=
  (cs.takeWhile Char.isDigit, cs.dropWhile Char.isDigit)

/-- Embedding of the regular expression `/^(\d+)\.(\d+)\.(\d+)$/` from
`mapVersionToTag` (src/index.js line 40): on a match, returns the three
captured digit groups. -/
def semverMatch (v : String) : Option (String × String × String) :=
  match digitSpan v.data with
  | (d1, '.' :: t1) =>
    match digitSpan t1 with
    | (d2, '.' :: t2) =>
      match digitSpan t2 with
      | (d3, []) =>
        if d1.isEmpty || d2.isEmpty || d3.isEmpty then none
        else some (String.mk d1, String.mk d2, String.mk d3)
      | _ => none
    | _ => none
  | _ => none

/-- Embedding of `mapVersionToTag(version, tags)` (src/index.js lines 31-52):
exact tag match first, then the `8.x-MAJOR.MINOR` legacy candidate, else the
version unchanged. -/
def mapVersionToTag (version : String) (tags : List String) : String :=
  if tags.contains version then version
  else
    match semverMatch version with
    | some (major, minor, _patch) =>
      let legacyTag := "8.x-" ++ major ++ "." ++ minor
      if tags.contains legacyTag then legacyTag else version
    | none => version

/-- The shape `MAJOR.MINOR.PATCH`: three dot-separated nonempty digit strings
and nothing else.  This is the language of the source regex, stated
structurally (spec side of claim C3). -/
def semverShape (v M m p : String) : Prop :=
  v = M ++ "." ++ m ++ "." ++ p ∧
  M.data ≠ [] ∧ m.data ≠ [] ∧ p.data ≠ [] ∧
  (∀ c ∈ M.data, c.isDigit = true) ∧
  (∀ c ∈ m.data, c.isDigit = true) ∧
  (∀ c ∈ p.data, c.isDigit = true)

lemma takeWhile_all_eq (P : Char → Bool) (l r : List Char)
    (hl : ∀ c ∈ l, P c = true) (hr : ∀ c l2, r = c :: l2 → P c = false) :
    (l ++ r).takeWhile P = l ∧ (l ++ r).dropWhile P = r := by
  induction l with
  | nil =>
    simp only [List.nil_append]
    cases r with
    | nil => simp
    | cons c l2 =>
      have hc := hr c l2 rfl
      simp [List.takeWhile_cons, List.dropWhile_cons, hc]
  | cons a l ih =>
    have ha : P a = true := hl a (by simp)
    have ih2 := ih (fun c hc => hl c (by simp [hc]))
    simp [List.takeWhile_cons, List.dropWhile_cons, ha, ih2.1, ih2.2]

lemma semverMatch_of_shape (v M m p : String) (h : semverShape v M m p) :
    semverMatch v = some (M, m, p) := by
  obtain ⟨hv, hM, hm, hp, hMd, hmd, hpd⟩ := h
  have hdot : ('.' : Char).isDigit = false := by decide
  have hdata : v.data = M.data ++ ('.' :: (m.data ++ ('.' :: p.data))) := by
    rw [hv]
    simp [String.data_append]
  have hs1 : digitSpan (M.data ++ ('.' :: (m.data ++ ('.' :: p.data)))) =
      (M.data, '.' :: (m.data ++ ('.' :: p.data))) := by
    have h1 := takeWhile_all_eq Char.isDigit M.data ('.' :: (m.data ++ ('.' :: p.data)))
      hMd (fun c l2 hc => by injection hc with hc1 _; exact hc1 ▸ hdot)
    simp [digitSpan, h1.1, h1.2]
  have hs2 : digitSpan (m.data ++ ('.' :: p.data)) = (m.data, '.' :: p.data) := by
    have h2 := takeWhile_all_eq Char.isDigit m.data ('.' :: p.data)
      hmd (fun c l2 hc => by injection hc with hc1 _; exact hc1 ▸ hdot)
    simp [digitSpan, h2.1, h2.2]
  have hs3 : digitSpan p.data = (p.data, []) := by
    have h3 := takeWhile_all_eq Char.isDigit p.data [] hpd (fun c l2 hc => by cases hc)
    rw [List.append_nil] at h3
    simp [digitSpan, h3.1, h3.2]
  unfold semverMatch
  rw [hdata]
  simp only [hs1, hs2, hs3]
  simp [List.isEmpty_iff, hM, hm, hp]

/-- Claim C4: if the version occurs verbatim in the tag list, `mapVersionToTag`
returns it unchanged — the exact match wins even when the legacy candidate is
also present. -/
theorem mapVersionToTag_mem (v : String) (T : List String) (h : v ∈ T) :
    mapVersionToTag v T = v := by
  unfold mapVersionToTag
  simp [h]

/-- Witness for claim C4 at a concrete input in which the legacy candidate
`8.x-1.38` is also present in the tag list. -/
theorem mapVersionToTag_mem_witness :
    ("1.38.0" : String) ∈ ["1.38.0", "8.x-1.38"] ∧
      mapVersionToTag "1.38.0" ["1.38.0", "8.x-1.38"] = "1.38.0" :=
  ⟨by decide, mapVersionToTag_mem "1.38.0" ["1.38.0", "8.x-1.38"] (by decide)⟩

/-- Claim C3: for a `MAJOR.MINOR.PATCH`-shaped version not itself in the tag
list, `mapVersionToTag` returns the legacy tag `8.x-MAJOR.MINOR` exactly when
that tag is in the list, and the version unchanged otherwise. -/
theorem mapVersionToTag_semver_shape (v M m p : String) (T : List String)
    (hshape : semverShape v M m p) (hnot : v ∉ T) :
    (("8.x-" ++ M ++ "." ++ m) ∈ T → mapVersionToTag v T = "8.x-" ++ M ++ "." ++ m) ∧
    (("8.x-" ++ M ++ "." ++ m) ∉ T → mapVersionToTag v T = v) := by
  have hsm := semverMatch_of_shape v M m p hshape
  constructor
  · intro hin
    unfold mapVersionToTag
    simp only [hsm]
    simp [hnot, hin]
  · intro hout
    unfold mapVersionToTag
    simp only [hsm]
    simp [hnot, hout]

/-- Witness for claim C3: both directions at concrete inputs. -/
theorem mapVersionToTag_semver_shape_witness :
    mapVersionToTag "1.38.0" ["8.x-1.38", "8.x-1.37"] = "8.x-1.38" ∧
      mapVersionToTag "1.40.0" ["8.x-1.38", "8.x-1.37"] = "1.40.0" :=
  ⟨(mapVersionToTag_semver_shape "1.38.0" "1" "38" "0" ["8.x-1.38", "8.x-1.37"]
      ⟨by decide, by decide, by decide, by decide, by decide, by decide, by decide⟩
      (by decide)).1 (by decide),
   (mapVersionToTag_semver_shape "1.40.0" "1" "40" "0" ["8.x-1.38", "8.x-1.37"]
      ⟨by decide, by decide, by decide, by decide, by decide, by decide, by decide⟩
      (by decide)).2 (by decide)⟩

/-- A tag object of the tag-listing endpoint response (`{name: string}`). -/
structure TagEntry where
  name : String
deriving DecidableEq

/-- Outcome of the HTTP interaction inside `fetchProjectTags`
(src/index.js lines 9-22): the fetch or the JSON parse rejects, the
response has a non-success status, or it succeeds with a parsed body whose
`tags` field may be missing or null. -/
inductive TagsFetchResult where
  | throws (message : String)
  | httpError (status : Nat)
  | success (tags : Option (List TagEntry))
deriving DecidableEq

/-- Embedding of `fetchProjectTags` (src/index.js lines 9-22): the try/catch
absorbs every failure into the empty list; on success `(data.tags || [])`
is mapped to the `name` fields. -/
def fetchProjectTags : TagsFetchResult → List String
  | TagsFetchResult.throws _ => []
  | TagsFetchResult.httpError _ => []
  | TagsFetchResult.success tags => (tags.getD []).map TagEntry.name

/-- Claim C5: `fetchProjectTags` never propagates an exception — it is total
on every fetch outcome, returns the empty list on thrown errors and on
non-success statuses, returns the empty list when the `tags` field is
missing, and otherwise the server-ordered `name` fields. -/
theorem fetchProjectTags_error_handling :
    (∀ msg, fetchProjectTags (TagsFetchResult.throws msg) = []) ∧
    (∀ status, fetchProjectTags (TagsFetchResult.httpError status) = []) ∧
    fetchProjectTags (TagsFetchResult.success none) = [] ∧
    (∀ entries, fetchProjectTags (TagsFetchResult.success (some entries)) =
      entries.map TagEntry.name) :=
  ⟨fun _ => rfl, fun _ => rfl, rfl, fun _ => rfl⟩

/-- Splits a character list at every comma; embeds
`String.prototype.split(',')` (so the empty input yields one empty field). -/
def splitOnComma : List Char → List (List Char)
  | [] => [[]]
  | c :: rest =>
    let r := splitOnComma rest
    if c = ',' then [] :: r
    else
      match r with
      | h :: t => (c :: h) :: t
      | [] => [[c]]

/-- Embeds `String.prototype.trim`. -/
def trimChars (cs : List Char) : List Char :=
  ((cs.dropWhile jsWhitespace).reverse.dropWhile jsWhitespace).reverse

/-- Embeds `s.split(',').map(v => v.trim())` from src/index.js lines 66-68. -/
def splitTrim (s : String) : List String :=
  (splitOnComma s.data).map (fun cs => String.mk (trimChars cs))

/-- One surviving package of the filtering loop (src/index.js lines 71-81). -/
structure PackageUpdate where
  name : String
  project : String
  fromV : String
  toV : String
deriving DecidableEq

/-- JavaScript `l[i] || l[0]` on a split result: an out-of-range index gives
`undefined`, and both `undefined` and the empty string are falsy, so either
falls back to the first element. -/
def fallbackIndex (l : List String) (i : Nat) : String :=
  let v := (l.get? i).getD ""
  if v = "" then (l.get? 0).getD "" else v

/-- The indexed filtering loop of src/index.js lines 72-81.  The
`startsWith('drupal/')` guard makes `replace('drupal/', '')` (first
occurrence) equal to dropping the seven prefix characters. -/
def buildPackagesAux (fromVs toVs : List String) : List String → Nat → List PackageUpdate
  | [], _ => []
  | nm :: rest, i =>
    if "drupal/".data.isPrefixOf nm.data then
      { name := nm, project := String.mk (nm.data.drop 7),
        fromV := fallbackIndex fromVs i, toV := fallbackIndex toVs i } ::
        buildPackagesAux fromVs toVs rest (i + 1)
    else buildPackagesAux fromVs toVs rest (i + 1)

/-- Embedding of the input parsing and drupal/ filtering of `run`
(src/index.js lines 66-81). -/
def parseDrupalPackages (dependencyNames previousVersion newVersion : String) :
    List PackageUpdate :=
  buildPackagesAux (splitTrim previousVersion) (splitTrim newVersion)
    (splitTrim dependencyNames) 0

/-- Claim C6: with three dependency names of which two carry the `drupal/`
prefix and fully aligned version lists, exactly those two survive with the
versions at their own indices; and with a single shared version pair, every
drupal package falls back to the first (only) version pair. -/
theorem parseDrupalPackages_grouped :
    parseDrupalPackages "drupal/core,other/pkg,drupal/token"
        "10.0.0,1.0.0,1.0.0" "10.1.0,1.1.0,1.1.0" =
      [⟨"drupal/core", "core", "10.0.0", "10.1.0"⟩,
       ⟨"drupal/token", "token", "1.0.0", "1.1.0"⟩] ∧
    parseDrupalPackages "drupal/core,drupal/token" "10.0.0" "10.1.0" =
      [⟨"drupal/core", "core", "10.0.0", "10.1.0"⟩,
       ⟨"drupal/token", "token", "10.0.0", "10.1.0"⟩] := by
  constructor <;> rfl

/-- Left-to-right concatenation of rendered fragments, modelling the `+=`
string accumulation of `run`. -/
def concatAll : List String → String
  | [] => ""
  | s :: rest => s ++ concatAll rest

/-- One changelog item of the changelog endpoint response; `nid` may be the
JSON value `null`. -/
structure Change where
  nid : Option String
  link : String
  ctype : String
  summary : String
deriving DecidableEq

/-- One pre-grouped bucket of changes; both fields may be missing in the
JSON body. -/
structure TypeGroup where
  gtype : Option String
  changes : Option (List Change)
deriving DecidableEq

/-- A supplementary change record, tolerating the old (`link`/`summary`) and
new (`url`/`title`) field conventions. -/
structure ChangeRecord where
  title : Option String
  summary : Option String
  url : Option String
  link : Option String
deriving DecidableEq

/-- Parsed body of the changelog endpoint. -/
structure ChangelogData where
  changes : Option (List TypeGroup)
  changeRecords : Option (List ChangeRecord)
deriving DecidableEq

/-- Outcome of the changelog HTTP interaction inside the per-package loop of
`run` (src/index.js lines 106-172): non-success status, thrown
transport/parse error, or success with a parsed body (which may be null). -/
inductive ChangelogResult where
  | httpError (status : Nat)
  | throws (message : String)
  | success (data : Option ChangelogData)
deriving DecidableEq

/-- Embedding of the replacement
`summary.replace(/^#[0-9]+(?:\s+by\s+[^:]+)?:\s*/, '')` (src/index.js
line 141).  The regex is anchored, so at most the leading match is removed:
a `#` and a nonempty digit run, then either a direct colon, or the optional
group — at least one whitespace, the literal `by`, then at least one
whitespace followed by at least one further non-colon character before the
next colon — and finally any run of whitespace after the colon. -/
def stripSummaryId (summary : String) : String :=
  match summary.data with
  | '#' :: rest =>
    let digits := rest.takeWhile Char.isDigit
    let afterDigits := rest.dropWhile Char.isDigit
    if digits.isEmpty then summary
    else
      match afterDigits with
      | ':' :: r => String.mk (r.dropWhile jsWhitespace)
      | c :: _ =>
        if jsWhitespace c then
          match afterDigits.dropWhile jsWhitespace with
          | 'b' :: 'y' :: r2 =>
            match r2, r2.dropWhile (fun ch => ch != ':') with
            | c2 :: _, ':' :: r3 =>
              if jsWhitespace c2 && (r2.takeWhile (fun ch => ch != ':')).length ≥ 2 then
                String.mk (r3.dropWhile jsWhitespace)
              else summary
            | _, _ => summary
          | _ => summary
        else summary
      | [] => summary
  | _ => summary

/-- Embedding of the per-change rendering (src/index.js lines 136-143):
the template `* [${issueId}](${change.link})` followed by a colon and the
stripped summary when that is nonempty.  `issueId` interpolates
`change.nid` into a template literal, so a null `nid` yields `#null`. -/
def renderChangeLine (change : Change) : String :=
  let issueId := "#" ++ jsTemplateOpt change.nid
  let summaryWithoutId := stripSummaryId change.summary
  "* [" ++ issueId ++ "](" ++ change.link ++ ")" ++
    (if summaryWithoutId != "" then ": " ++ summaryWithoutId else "") ++ "\n"

/-- Embedding of the type-group rendering (src/index.js lines 129-145): a
group with a missing or empty change list is skipped entirely; otherwise a
`####` heading with the `type || 'Misc'` fallback, the entry lines, and a
blank line. -/
def renderTypeGroup (g : TypeGroup) : String :=
  match g.changes with
  | none => ""
  | some cs =>
    if cs.length = 0 then ""
    else "#### " ++ jsOrDefault g.gtype "Misc" ++ "\n\n" ++
      concatAll (cs.map renderChangeLine) ++ "\n"

/-- Embedding of one change-record line (src/index.js lines 150-157):
`record.url || record.link` and `record.title || record.summary`, rendered
only when both results are truthy. -/
def renderChangeRecord (r : ChangeRecord) : String :=
  let recordUrl := jsOrOpt r.url r.link
  let recordTitle := jsOrOpt r.title r.summary
  if jsTruthyOpt recordUrl && jsTruthyOpt recordTitle then
    "* [" ++ recordTitle.getD "" ++ "](" ++ recordUrl.getD "" ++ ")\n"
  else ""

/-- Embedding of the change-records block (src/index.js lines 148-159),
emitted only when `data.changeRecords` is present and nonempty. -/
def renderChangeRecords (rs : Option (List ChangeRecord)) : String :=
  match rs with
  | none => ""
  | some l =>
    if l.length > 0 then
      "#### Change Records\n\n" ++ concatAll (l.map renderChangeRecord) ++ "\n"
    else ""

/-- The release-notes page URL of src/index.js lines 124 and 164, built from
the mapped `to` version. -/
def releaseNotesUrl (project mappedTo : String) : String :=
  "https://www.drupal.org/project/" ++ project ++ "/releases/" ++ mappedTo

/-- The compare URL of src/index.js line 125, built from both mapped
versions. -/
def compareUrl (project mappedFrom mappedTo : String) : String :=
  "https://git.drupalcode.org/project/" ++ project ++ "/-/compare/" ++
    mappedFrom ++ "..." ++ mappedTo

/-- The text appended for one package by the loop body of `run`
(src/index.js lines 96-172), paired with the `hasReleaseNotes` contribution.
The tags list feeds `mapVersionToTag`; URLs use the mapped versions while
the visible text uses the package's original versions. -/
def renderPackageSection (pkg : PackageUpdate) (tags : List String)
    (cr : ChangelogResult) : String × Bool :=
  let mappedFrom := mapVersionToTag pkg.fromV tags
  let mappedTo := mapVersionToTag pkg.toV tags
  match cr with
  | ChangelogResult.httpError _ =>
    ("### " ++ pkg.name ++ "\n\n" ++
      "_Could not fetch release notes (" ++ pkg.fromV ++ " → " ++ pkg.toV ++ ")_\n\n",
     false)
  | ChangelogResult.throws msg =>
    ("### " ++ pkg.name ++ "\n\n" ++
      "_Error fetching release notes: " ++ msg ++ "_\n\n", false)
  | ChangelogResult.success data =>
    match data with
    | some d =>
      match d.changes with
      | some groups =>
        if groups.length > 0 then
          ("### " ++ pkg.name ++ "\n\n" ++
            "**" ++ pkg.fromV ++ " → [" ++ pkg.toV ++ "](" ++
              releaseNotesUrl pkg.project mappedTo ++ ")** ([compare](" ++
              compareUrl pkg.project mappedFrom mappedTo ++ "))\n\n" ++
            concatAll (groups.map renderTypeGroup) ++
            renderChangeRecords d.changeRecords ++ "\n", true)
        else
          ("### " ++ pkg.name ++ "\n\n" ++
            "**" ++ pkg.fromV ++ " → [" ++ pkg.toV ++ "](" ++
              releaseNotesUrl pkg.project mappedTo ++ ")**\n\n" ++
            "_No release notes available_\n\n", false)
      | none =>
        ("### " ++ pkg.name ++ "\n\n" ++
          "**" ++ pkg.fromV ++ " → [" ++ pkg.toV ++ "](" ++
            releaseNotesUrl pkg.project mappedTo ++ ")**\n\n" ++
          "_No release notes available_\n\n", false)
    | none =>
      ("### " ++ pkg.name ++ "\n\n" ++
        "**" ++ pkg.fromV ++ " → [" ++ pkg.toV ++ "](" ++
          releaseNotesUrl pkg.project mappedTo ++ ")**\n\n" ++
        "_No release notes available_\n\n", false)

/-- Claim C1, refuting evaluation: for the null-`nid` change taken from the
repository's own test suite, the rendered entry line embeds a `[#null]` link
and the literal text `null`, instead of the raw summary alone. -/
theorem renderChangeLine_null_nid :
    renderChangeLine ⟨none, "", "Misc", "Update .cspell-project-words.txt file"⟩ =
      "* [#null](): Update .cspell-project-words.txt file\n" ∧
    strIncludes
      (renderChangeLine ⟨none, "", "Misc", "Update .cspell-project-words.txt file"⟩)
      "[#null]" = true := by
  constructor <;> rfl

/-- Claim C7: for a change whose summary embeds its own issue id, the leading
id prefix is stripped before display, so the rendered line shows the id
exactly once. -/
theorem renderChangeLine_strips_duplicate_id :
    renderChangeLine ⟨some "12345", "link", "Bug", "#12345: Fixed a bug"⟩ =
      "* [#12345](link): Fixed a bug\n" ∧
    stripSummaryId "#12345: Fixed a bug" = "Fixed a bug" := by
  constructor <;> rfl

/-- Claim C8: in a successfully rendered package section the release-notes
URL and the compare URL are built from the mapped versions while the visible
from/to text keeps the original versions, and the compare link is emitted
only in the branch with a nonempty change list. -/
theorem renderPackageSection_urls (pkg : PackageUpdate) (tags : List String)
    (d : ChangelogData) (groups : List TypeGroup)
    (hc : d.changes = some groups) (hne : groups.length > 0) :
    (renderPackageSection pkg tags (ChangelogResult.success (some d))).1 =
      "### " ++ pkg.name ++ "\n\n" ++
        "**" ++ pkg.fromV ++ " → [" ++ pkg.toV ++ "](" ++
          releaseNotesUrl pkg.project (mapVersionToTag pkg.toV tags) ++
          ")** ([compare](" ++
          compareUrl pkg.project (mapVersionToTag pkg.fromV tags)
            (mapVersionToTag pkg.toV tags) ++ "))\n\n" ++
        concatAll (groups.map renderTypeGroup) ++
        renderChangeRecords d.changeRecords ++ "\n" ∧
    (∀ d2 : ChangelogData, d2.changes = none ∨ d2.changes = some [] →
      (renderPackageSection pkg tags (ChangelogResult.success (some d2))).1 =
        "### " ++ pkg.name ++ "\n\n" ++
          "**" ++ pkg.fromV ++ " → [" ++ pkg.toV ++ "](" ++
            releaseNotesUrl pkg.project (mapVersionToTag pkg.toV tags) ++ ")**\n\n" ++
          "_No release notes available_\n\n") := by
  constructor
  · simp [renderPackageSection, hc, hne]
  · intro d2 h2
    cases h2 with
    | inl h => simp [renderPackageSection, h]
    | inr h => simp [renderPackageSection, h]

/-- Witness for claim C8: a token update whose versions map to legacy tags;
the URLs carry the mapped `8.x-` tags, the visible text the original
versions, and the compare link disappears with an empty group list. -/
theorem renderPackageSection_urls_witness :
    (renderPackageSection ⟨"drupal/token", "token", "1.38.0", "1.40.0"⟩
        ["8.x-1.38", "8.x-1.40"]
        (ChangelogResult.success
          (some ⟨some [⟨some "Bug", some [⟨some "1", "L", "Bug", "#1: F"⟩]⟩], some []⟩))).1 =
      "### drupal/token\n\n**1.38.0 → [1.40.0](https://www.drupal.org/project/token/releases/8.x-1.40)** ([compare](https://git.drupalcode.org/project/token/-/compare/8.x-1.38...8.x-1.40))\n\n#### Bug\n\n* [#1](L): F\n\n\n" ∧
    (renderPackageSection ⟨"drupal/token", "token", "1.38.0", "1.40.0"⟩
        ["8.x-1.38", "8.x-1.40"]
        (ChangelogResult.success (some ⟨some [], none⟩))).1 =
      "### drupal/token\n\n**1.38.0 → [1.40.0](https://www.drupal.org/project/token/releases/8.x-1.40)**\n\n_No release notes available_\n\n" :=
  ⟨(renderPackageSection_urls ⟨"drupal/token", "token", "1.38.0", "1.40.0"⟩
      ["8.x-1.38", "8.x-1.40"]
      ⟨some [⟨some "Bug", some [⟨some "1", "L", "Bug", "#1: F"⟩]⟩], some []⟩
      [⟨some "Bug", some [⟨some "1", "L", "Bug", "#1: F"⟩]⟩] rfl (by decide)).1,
   (renderPackageSection_urls ⟨"drupal/token", "token", "1.38.0", "1.40.0"⟩
      ["8.x-1.38", "8.x-1.40"]
      ⟨some [⟨some "Bug", some [⟨some "1", "L", "Bug", "#1: F"⟩]⟩], some []⟩
      [⟨some "Bug", some [⟨some "1", "L", "Bug", "#1: F"⟩]⟩] rfl (by decide)).2
      ⟨some [], none⟩ (Or.inr rfl)⟩

/-- The idempotence marker checked at src/index.js line 196. -/
def markerHeading : String := "## Drupal Release Notes"

/-- The fixed heading that opens the assembled section (src/index.js
line 89). -/
def sectionHeader : String := "\n\n---\n\n## Drupal Release Notes\n\n"

/-- The `pull_request` member of the webhook payload; its `number` may be
missing. -/
structure PullRequestPayload where
  number : Option Nat
deriving DecidableEq

/-- The guard of src/index.js line 183:
`context.payload.pull_request && context.payload.pull_request.number`,
where a number is falsy exactly when it is missing or zero. -/
def hasPrContext : Option PullRequestPayload → Bool
  | none => false
  | some p =>
    match p.number with
    | none => false
    | some n => n != 0

/-- Every external input consumed by one execution of `run`
(src/index.js lines 54-216): the four environment variables, the body of
the i-th tag fetch and the i-th changelog fetch, and the PR payload and
fetched PR body. -/
structure RunEnv where
  githubToken : Option String
  dependencyNames : Option String
  previousVersion : Option String
  newVersion : Option String
  tagResponses : Nat → TagsFetchResult
  changelogResponses : Nat → ChangelogResult
  pullRequest : Option PullRequestPayload
  prBody : Option String

/-- The packages a run works on, from its environment (src/index.js
lines 57-81, with `process.env.X || ''` defaults). -/
def envPackages (env : RunEnv) : List PackageUpdate :=
  parseDrupalPackages (env.dependencyNames.getD "") (env.previousVersion.getD "")
    (env.newVersion.getD "")

/-- The per-package loop of src/index.js lines 92-173, started at package
index `i`: accumulates the rendered text and the `hasReleaseNotes` flag. -/
def processPackagesIdx (tagR : Nat → TagsFetchResult) (clR : Nat → ChangelogResult) :
    List PackageUpdate → Nat → String × Bool
  | [], _ => ("", false)
  | pkg :: rest, i =>
    let tags := fetchProjectTags (tagR i)
    let here := renderPackageSection pkg tags (clR i)
    let further := processPackagesIdx tagR clR rest (i + 1)
    (here.1 ++ further.1, here.2 || further.2)

/-- Observable outcome of one execution of `run`: the fatal stops, the two
informational early returns, or a PR update carrying the new body. -/
inductive RunOutcome where
  | failedMissingToken
  | noDrupalPackages
  | failedNoPrContext
  | skippedExisting
  | updated (newBody : String)
deriving DecidableEq

/-- The duplicate check and update of src/index.js lines 196-209: when the
fetched body is truthy and contains the marker, return without updating;
otherwise update with `(pr.body || '') + releaseNotesSection`. -/
def decidePrUpdate (prBody : Option String) (notes : String) : RunOutcome :=
  if jsTruthyOpt prBody && strIncludes (prBody.getD "") markerHeading then
    RunOutcome.skippedExisting
  else RunOutcome.updated (prBody.getD "" ++ notes)

/-- Embedding of `run` (src/index.js lines 54-216) over an explicit
environment: token guard, parse and filter, per-package fetch loop, PR
context guard, duplicate-marker guard, PR update.  The `hasReleaseNotes`
flag only feeds a log line (lines 175-177) and never gates the update. -/
def runModel (env : RunEnv) : RunOutcome :=
  if !jsTruthyOpt env.githubToken then RunOutcome.failedMissingToken
  else
    let pkgs := envPackages env
    if pkgs.isEmpty then RunOutcome.noDrupalPackages
    else
      let notes := sectionHeader ++
        (processPackagesIdx env.tagResponses env.changelogResponses pkgs 0).1
      if !hasPrContext env.pullRequest then RunOutcome.failedNoPrContext
      else decidePrUpdate env.prBody notes

/-- The block appended for a package that yields no rendered release notes:
the HTTP-failure placeholder, the thrown-error placeholder, or the
no-release-notes placeholder (src/index.js lines 111-112, 170-171 and
163-166). -/
def placeholderBlock (pkg : PackageUpdate) (tags : List String)
    (cr : ChangelogResult) : String :=
  match cr with
  | ChangelogResult.httpError _ =>
    "### " ++ pkg.name ++ "\n\n" ++
      "_Could not fetch release notes (" ++ pkg.fromV ++ " → " ++ pkg.toV ++ ")_\n\n"
  | ChangelogResult.throws msg =>
    "### " ++ pkg.name ++ "\n\n" ++
      "_Error fetching release notes: " ++ msg ++ "_\n\n"
  | ChangelogResult.success _ =>
    "### " ++ pkg.name ++ "\n\n" ++
      "**" ++ pkg.fromV ++ " → [" ++ pkg.toV ++ "](" ++
        releaseNotesUrl pkg.project (mapVersionToTag pkg.toV tags) ++ ")**\n\n" ++
      "_No release notes available_\n\n"

lemma renderPackageSection_no_notes (pkg : PackageUpdate) (tags : List String)
    (cr : ChangelogResult) (h : (renderPackageSection pkg tags cr).2 = false) :
    (renderPackageSection pkg tags cr).1 = placeholderBlock pkg tags cr := by
  cases cr with
  | httpError s => rfl
  | throws m => rfl
  | success data =>
    cases data with
    | none => rfl
    | some d =>
      cases hd : d.changes with
      | none => simp [renderPackageSection, placeholderBlock, hd]
      | some groups =>
        by_cases hg : groups.length > 0
        · exfalso
          rw [show (renderPackageSection pkg tags (ChangelogResult.success (some d))).2 =
              true by simp [renderPackageSection, hd, hg]] at h
          cases h
        · simp [renderPackageSection, placeholderBlock, hd, hg]

lemma processPackages_no_notes (tagR : Nat → TagsFetchResult)
    (clR : Nat → ChangelogResult) (pkgs : List PackageUpdate) (i : Nat)
    (h : (processPackagesIdx tagR clR pkgs i).2 = false) :
    (processPackagesIdx tagR clR pkgs i).1 =
      concatAll ((pkgs.enumFrom i).map (fun x =>
        placeholderBlock x.2 (fetchProjectTags (tagR x.1)) (clR x.1))) := by
  induction pkgs generalizing i with
  | nil => rfl
  | cons pkg rest ih =>
    have h2 : (renderPackageSection pkg (fetchProjectTags (tagR i)) (clR i)).2 = false ∧
        (processPackagesIdx tagR clR rest (i + 1)).2 = false := by
      have hh := h
      simp [processPackagesIdx] at hh
      exact hh
    simp only [processPackagesIdx, List.enumFrom_cons, List.map_cons, concatAll]
    rw [renderPackageSection_no_notes pkg _ (clR i) h2.1, ih (i + 1) h2.2]

/-- Claim C2: when the fetched PR body already contains the literal heading
`## Drupal Release Notes`, the run never reaches the PR update call, so the
rendered block is appended at most once. -/
theorem runModel_no_update_when_marked (env : RunEnv) (s b : String)
    (hb : env.prBody = some s) (hmark : strIncludes s markerHeading = true) :
    runModel env ≠ RunOutcome.updated b := by
  have hne : s ≠ "" := by
    intro h0
    rw [h0] at hmark
    exact absurd hmark (by decide)
  unfold runModel
  dsimp only
  split
  · simp
  · split
    · simp
    · split
      · simp
      · rw [hb]
        unfold decidePrUpdate
        simp [jsTruthyOpt, hne, hmark]

/-- Witness for claim C2: a PR body that already carries the heading leads
away from the update outcome. -/
theorem runModel_no_update_when_marked_witness :
    strIncludes "Existing PR body\n\n## Drupal Release Notes\n\nAlready here"
      markerHeading = true ∧
    runModel ⟨some "t", some "drupal/core", some "10.0.0", some "10.1.0",
        fun _ => TagsFetchResult.throws "e", fun _ => ChangelogResult.httpError 404,
        some ⟨some 123⟩,
        some "Existing PR body\n\n## Drupal Release Notes\n\nAlready here"⟩ ≠
      RunOutcome.updated "x" :=
  ⟨by decide,
   runModel_no_update_when_marked _ _ "x" rfl (by decide)⟩

/-- Claim C9: with a null PR body, a reachable update call receives exactly
the assembled release-notes section — the null body acts as the empty
string, so the new body starts with the section header. -/
theorem runModel_null_body (env : RunEnv)
    (htok : jsTruthyOpt env.githubToken = true)
    (hpkgs : (envPackages env).isEmpty = false)
    (hctx : hasPrContext env.pullRequest = true)
    (hbody : env.prBody = none) :
    runModel env = RunOutcome.updated (sectionHeader ++
      (processPackagesIdx env.tagResponses env.changelogResponses
        (envPackages env) 0).1) := by
  unfold runModel
  dsimp only
  rw [htok, hpkgs, hctx, hbody]
  unfold decidePrUpdate
  simp [jsTruthyOpt]

set_option maxRecDepth 8192

/-- Witness for claim C9: a null-body PR with one core package and one change;
the update body is exactly the release-notes section. -/
theorem runModel_null_body_witness :
    (envPackages ⟨some "t", some "drupal/core", some "10.0.0", some "10.1.0",
        fun _ => TagsFetchResult.success (some []),
        fun _ => ChangelogResult.success (some ⟨some [⟨some "Bug",
          some [⟨some "1", "https://www.drupal.org/i/1", "Bug", "#1: Bug fix"⟩]⟩],
          some []⟩),
        some ⟨some 123⟩, none⟩).isEmpty = false ∧
    runModel ⟨some "t", some "drupal/core", some "10.0.0", some "10.1.0",
        fun _ => TagsFetchResult.success (some []),
        fun _ => ChangelogResult.success (some ⟨some [⟨some "Bug",
          some [⟨some "1", "https://www.drupal.org/i/1", "Bug", "#1: Bug fix"⟩]⟩],
          some []⟩),
        some ⟨some 123⟩, none⟩ =
      RunOutcome.updated
        "\n\n---\n\n## Drupal Release Notes\n\n### drupal/core\n\n**10.0.0 → [10.1.0](https://www.drupal.org/project/core/releases/10.1.0)** ([compare](https://git.drupalcode.org/project/core/-/compare/10.0.0...10.1.0))\n\n#### Bug\n\n* [#1](https://www.drupal.org/i/1): Bug fix\n\n\n" :=
  ⟨by decide,
   runModel_null_body ⟨some "t", some "drupal/core", some "10.0.0", some "10.1.0",
      fun _ => TagsFetchResult.success (some []),
      fun _ => ChangelogResult.success (some ⟨some [⟨some "Bug",
        some [⟨some "1", "https://www.drupal.org/i/1", "Bug", "#1: Bug fix"⟩]⟩],
        some []⟩),
      some ⟨some 123⟩, none⟩ (by decide) (by decide) (by decide) rfl⟩

/-- Claim C10: when at least one drupal package survives and both the PR
context check and the duplicate-marker check pass, the update call happens
even with the `hasReleaseNotes` flag false, and the appended section is the
fixed heading followed by one placeholder block per package. -/
theorem runModel_updates_without_notes (env : RunEnv)
    (htok : jsTruthyOpt env.githubToken = true)
    (hpkgs : (envPackages env).isEmpty = false)
    (hctx : hasPrContext env.pullRequest = true)
    (hunmarked : (jsTruthyOpt env.prBody &&
      strIncludes (env.prBody.getD "") markerHeading) = false)
    (hnone : (processPackagesIdx env.tagResponses env.changelogResponses
      (envPackages env) 0).2 = false) :
    runModel env = RunOutcome.updated (env.prBody.getD "" ++ (sectionHeader ++
      concatAll (((envPackages env).enumFrom 0).map (fun x =>
        placeholderBlock x.2 (fetchProjectTags (env.tagResponses x.1))
          (env.changelogResponses x.1))))) := by
  unfold runModel
  dsimp only
  rw [htok, hpkgs, hctx]
  unfold decidePrUpdate
  rw [hunmarked]
  simp only [Bool.false_eq_true, if_false]
  rw [processPackages_no_notes _ _ _ _ hnone]
  simp

/-- Witness for claim C10: two drupal packages whose changelog fetches all
fail with HTTP 500; the PR update still happens and appends the heading with
two placeholder blocks. -/
theorem runModel_updates_without_notes_witness :
    (processPackagesIdx (fun _ => TagsFetchResult.throws "x")
        (fun _ => ChangelogResult.httpError 500)
        (envPackages ⟨some "t", some "drupal/core,drupal/token", some "10.0.0",
          some "10.1.0", fun _ => TagsFetchResult.throws "x",
          fun _ => ChangelogResult.httpError 500,
          some ⟨some 123⟩, some "Existing PR body"⟩) 0).2 = false ∧
    runModel ⟨some "t", some "drupal/core,drupal/token", some "10.0.0",
        some "10.1.0", fun _ => TagsFetchResult.throws "x",
        fun _ => ChangelogResult.httpError 500,
        some ⟨some 123⟩, some "Existing PR body"⟩ =
      RunOutcome.updated
        "Existing PR body\n\n---\n\n## Drupal Release Notes\n\n### drupal/core\n\n_Could not fetch release notes (10.0.0 → 10.1.0)_\n\n### drupal/token\n\n_Could not fetch release notes (10.0.0 → 10.1.0)_\n\n" :=
  ⟨by decide,
   runModel_updates_without_notes ⟨some "t", some "drupal/core,drupal/token",
      some "10.0.0", some "10.1.0", fun _ => TagsFetchResult.throws "x",
      fun _ => ChangelogResult.httpError 500,
      some ⟨some 123⟩, some "Existing PR body"⟩
      (by decide) (by decide) (by decide) (by decide) (by decide)⟩
